import Mathlib

/-!
Verification development for the PDP capture/audit core
(`capture.py`, with the `analyze.py` / `run_audit.py` / `app.py` /
`regions.py` call surface).

The Python source is shallowly embedded:
  * pure computations (`sha8`, output-path layout, clip-rectangle
    arithmetic, fixed key lists) become Lean functions;
  * the Playwright-driven control flow of `capture_pdp` becomes a
    state-passing computation over an oracle that decides, per primitive
    page operation, whether it returns a value or raises an exception
    (`try/except` becomes an explicit `attempt` combinator that keeps
    state changes, matching Python semantics);
  * machine floats used only for coordinates become `Rat`;
  * screenshot files produced on disk become a list of produced paths
    threaded through the state.
-/

set_option maxRecDepth 100000

namespace QuinceAudit

/-! ## SHA-256, embedded from the standard the source calls via `hashlib`.

`capture.py` computes `hashlib.sha256(s.encode("utf-8")).hexdigest()[:8]`.
Bytes are `Nat`s, 32-bit words are `Nat`s reduced mod `2^32`. -/

def w32 (n : Nat) : Nat := n % 4294967296

def rotr (n x : Nat) : Nat := w32 ((x >>> n) ||| (x <<< (32 - n)))

def shaCh (e f g : Nat) : Nat := (e &&& f) ^^^ ((e ^^^ 4294967295) &&& g)

def shaMaj (a b c : Nat) : Nat := (a &&& b) ^^^ (a &&& c) ^^^ (b &&& c)

def bigSigma0 (a : Nat) : Nat := rotr 2 a ^^^ rotr 13 a ^^^ rotr 22 a

def bigSigma1 (e : Nat) : Nat := rotr 6 e ^^^ rotr 11 e ^^^ rotr 25 e

def smallSigma0 (x : Nat) : Nat := rotr 7 x ^^^ rotr 18 x ^^^ (x >>> 3)

def smallSigma1 (x : Nat) : Nat := rotr 17 x ^^^ rotr 19 x ^^^ (x >>> 10)

/-- The 64 SHA-256 round constants, in decimal. -/
def shaK : List Nat :=
  [1116352408, 1899447441, 3049323471, 3921009573, 961987163, 1508970993,
   2453635748, 2870763221, 3624381080, 310598401, 607225278, 1426881987,
   1925078388, 2162078206, 2614888103, 3248222580, 3835390401, 4022224774,
   264347078, 604807628, 770255983, 1249150122, 1555081692, 1996064986,
   2554220882, 2821834349, 2952996808, 3210313671, 3336571891, 3584528711,
   113926993, 338241895, 666307205, 773529912, 1294757372, 1396182291,
   1695183700, 1986661051, 2177026350, 2456956037, 2730485921, 2820302411,
   3259730800, 3345764771, 3516065817, 3600352804, 4094571909, 275423344,
   430227734, 506948616, 659060556, 883997877, 958139571, 1322822218,
   1537002063, 1747873779, 1955562222, 2024104815, 2227730452, 2361852424,
   2428436474, 2756734187, 3204031479, 3329325298]

structure H8 where
  a : Nat
  b : Nat
  c : Nat
  d : Nat
  e : Nat
  f : Nat
  g : Nat
  h : Nat
deriving DecidableEq

/-- The eight SHA-256 initial hash values, in decimal. -/
def shaInit : H8 :=
  ⟨1779033703, 3144134277, 1013904242, 2773480762,
   1359893119, 2600822924, 528734635, 1541459225⟩

/-- SHA-256 padding: append `0x80`, zero bytes to 56 mod 64, then the
bit length as 8 big-endian bytes. -/
def shaPad (m : List Nat) : List Nat :=
  let L := m.length
  let zeros := (119 - L % 64) % 64
  let lenBytes := (List.range 8).map (fun i => ((8 * L) >>> (56 - 8 * i)) % 256)
  m ++ [0x80] ++ List.replicate zeros 0 ++ lenBytes

/-- Split the padded message into 64-byte blocks. -/
def shaBlocks (padded : List Nat) : List (List Nat) :=
  (List.range (padded.length / 64)).map (fun i => ((padded.drop (64 * i)).take 64))

/-- The 16 initial 32-bit words of a block, big-endian. -/
def blockWords (blk : List Nat) : List Nat :=
  (List.range 16).map (fun j =>
    blk.getD (4 * j) 0 * 16777216 + blk.getD (4 * j + 1) 0 * 65536 +
    blk.getD (4 * j + 2) 0 * 256 + blk.getD (4 * j + 3) 0)

/-- Extend 16 words to the 64-entry message schedule. -/
def msgSchedule (blk : List Nat) : List Nat :=
  (List.range 48).foldl
    (fun w _ =>
      let n := w.length
      w ++ [w32 (smallSigma1 (w.getD (n - 2) 0) + w.getD (n - 7) 0 +
                 smallSigma0 (w.getD (n - 15) 0) + w.getD (n - 16) 0)])
    (blockWords blk)

def compressStep (s : H8) (kw : Nat × Nat) : H8 :=
  let t1 := w32 (s.h + bigSigma1 s.e + shaCh s.e s.f s.g + kw.1 + kw.2)
  let t2 := w32 (bigSigma0 s.a + shaMaj s.a s.b s.c)
  ⟨w32 (t1 + t2), s.a, s.b, s.c, w32 (s.d + t1), s.e, s.f, s.g⟩

def compressBlock (s : H8) (blk : List Nat) : H8 :=
  let ws := msgSchedule blk
  let t := (List.range 64).foldl
    (fun st i => compressStep st (shaK.getD i 0, ws.getD i 0)) s
  ⟨w32 (s.a + t.a), w32 (s.b + t.b), w32 (s.c + t.c), w32 (s.d + t.d),
   w32 (s.e + t.e), w32 (s.f + t.f), w32 (s.g + t.g), w32 (s.h + t.h)⟩

/-- SHA-256 digest of a byte sequence, as the 8 final 32-bit words. -/
def sha256Words (m : List Nat) : List Nat :=
  let t := (shaBlocks (shaPad m)).foldl compressBlock shaInit
  [t.a, t.b, t.c, t.d, t.e, t.f, t.g, t.h]

def hexDigitChar (n : Nat) : Char :=
  match n with
  | 0 => '0' | 1 => '1' | 2 => '2' | 3 => '3' | 4 => '4' | 5 => '5' | 6 => '6' | 7 => '7'
  | 8 => '8' | 9 => '9' | 10 => 'a' | 11 => 'b' | 12 => 'c' | 13 => 'd' | 14 => 'e' | _ => 'f'

/-- A 32-bit word as 8 lowercase hex characters, most significant nibble first. -/
def wordHexChars (n : Nat) : List Char :=
  (List.range 8).map (fun i => hexDigitChar ((n >>> (28 - 4 * i)) % 16))

/-- UTF-8 encoding of one character (the source's `s.encode("utf-8")`). -/
def utf8EncodeChar (c : Char) : List Nat :=
  let n := c.toNat
  if n < 0x80 then [n]
  else if n < 0x800 then
    [0xC0 ||| (n >>> 6), 0x80 ||| (n &&& 0x3F)]
  else if n < 0x10000 then
    [0xE0 ||| (n >>> 12), 0x80 ||| ((n >>> 6) &&& 0x3F), 0x80 ||| (n &&& 0x3F)]
  else
    [0xF0 ||| (n >>> 18), 0x80 ||| ((n >>> 12) &&& 0x3F),
     0x80 ||| ((n >>> 6) &&& 0x3F), 0x80 ||| (n &&& 0x3F)]

def strBytes (s : String) : List Nat := s.data.flatMap utf8EncodeChar

/-- Hex digest characters of `hashlib.sha256(s.encode("utf-8")).hexdigest()`. -/
def sha256hexChars (s : String) : List Char :=
  (sha256Words (strBytes s)).flatMap wordHexChars

def sha256hexString (s : String) : String := String.mk (sha256hexChars s)

/-- Embedding of `capture.sha8`:
`hashlib.sha256(s.encode("utf-8")).hexdigest()[:8]`. -/
def sha8 (s : String) : String := String.mk ((sha256hexChars s).take 8)

example : sha256hexString "abc" =
    "ba7816bf8f01cfea414140de5dae2223b00361a396177a9cb410ff61f20015ad" := by rfl

example : sha256hexString "" =
    "e3b0c44298fc1c149afbf4c8996fb92427ae41e4649b934ca495991b7852b855" := by rfl

example : sha8 "u" = "0bfe935e" := by rfl

/-! ## Output-directory layout of `capture_pdp`.

`run_id = sha8(url)`, `out_dir = os.path.join(out_root, run_id)`,
`shots_dir = os.path.join(out_dir, "screenshots")`, and the four artifact
paths are the `paths` dict of `capture.py` lines 208-213.  `os.path.join`
on relative POSIX components is modelled as `a ++ "/" ++ b`. -/

def pjoin (a b : String) : String := a ++ "/" ++ b

/-- The `paths` dict of `capture_pdp` (capture.py lines 208-213). -/
def capturePaths (shotsDir : String) : List (String × String) :=
  [("full_page", pjoin shotsDir "01_full_page.png"),
   ("details_view", pjoin shotsDir "02_details_view.png"),
   ("care_view", pjoin shotsDir "03_care_view.png"),
   ("size_chart_view", pjoin shotsDir "04_size_chart_view.png")]

def outDirOf (outRoot url : String) : String := pjoin outRoot (sha8 url)

def shotsDirOf (outRoot url : String) : String := pjoin (outDirOf outRoot url) "screenshots"

def isHexChar (c : Char) : Bool := "0123456789abcdef".data.contains c

theorem hexDigitChar_isHex (n : Nat) : isHexChar (hexDigitChar n) = true := by
  unfold hexDigitChar
  split <;> rfl

theorem sha256hexChars_length (s : String) : (sha256hexChars s).length = 64 := by
  unfold sha256hexChars sha256Words
  simp [wordHexChars]

theorem sha8_length (s : String) : (sha8 s).length = 8 := by
  show ((sha256hexChars s).take 8).length = 8
  simp [sha256hexChars_length]

theorem sha8_all_hex (s : String) : (sha8 s).data.all isHexChar = true := by
  rw [List.all_eq_true]
  intro c hc
  have hc' : c ∈ sha256hexChars s := List.mem_of_mem_take hc
  unfold sha256hexChars at hc'
  rw [List.mem_flatMap] at hc'
  obtain ⟨w, _, hcw⟩ := hc'
  unfold wordHexChars at hcw
  rw [List.mem_map] at hcw
  obtain ⟨i, _, rfl⟩ := hcw
  exact hexDigitChar_isHex _

theorem strAppend_assoc (a b c : String) : a ++ b ++ c = a ++ (b ++ c) := by
  apply String.ext
  simp [String.data_append, List.append_assoc]

/-- C9: for every url and output root, the run identifier is the first 8 hex
characters of SHA-256 of the url (so it is an 8-character hex string and a
deterministic function of the url alone), and the four artifact files are laid
out as `outputRoot/<runId>/screenshots/<NN_artifactkey>.png` with `NN` running
01..04 in the fixed key order. -/
theorem runId_and_path_convention (url outRoot : String) :
    sha8 url = String.mk ((sha256hexChars url).take 8) ∧
    (sha8 url).length = 8 ∧
    (sha8 url).data.all isHexChar = true ∧
    capturePaths (shotsDirOf outRoot url) =
      [("full_page", outRoot ++ "/" ++ sha8 url ++ "/screenshots/01_full_page.png"),
       ("details_view", outRoot ++ "/" ++ sha8 url ++ "/screenshots/02_details_view.png"),
       ("care_view", outRoot ++ "/" ++ sha8 url ++ "/screenshots/03_care_view.png"),
       ("size_chart_view", outRoot ++ "/" ++ sha8 url ++ "/screenshots/04_size_chart_view.png")] := by
  refine ⟨rfl, sha8_length url, sha8_all_hex url, ?_⟩
  unfold capturePaths shotsDirOf outDirOf pjoin
  simp only [strAppend_assoc]
  rfl

/-! ## Clip-rectangle arithmetic (`_clip_to_bbox` and `_clip_locator_bbox`).

Python floats carrying page coordinates are modelled as `Rat`. -/

structure BBoxQ where
  x : Rat
  y : Rat
  w : Rat
  h : Rat
deriving DecidableEq

structure ClipRegion where
  x : Rat
  y : Rat
  w : Rat
  h : Rat
deriving DecidableEq

/-- The `clip` dict computed inside `_clip_to_bbox` (capture.py lines 38-43):
`x, y` floored at 0 and `width, height` floored at 50. -/
def clipToBBoxRegion (b : BBoxQ) : ClipRegion :=
  ⟨max 0 b.x, max 0 b.y, max 50 b.w, max 50 b.h⟩

/-- The bbox dict `_clip_locator_bbox` passes to `_clip_to_bbox`
(capture.py lines 63-71): padding applied, `x, y` floored at 0, and the
height clamped into `[min_h, max_h]`. -/
def locatorClipBox (b : BBoxQ) (pad minH maxH : Rat) : BBoxQ :=
  ⟨max 0 (b.x - pad), max 0 (b.y - pad),
   b.w + pad * 2, min (max (b.h + pad * 2) minH) maxH⟩

/-- The clip rectangle actually handed to `page.screenshot` for a locator
capture: `_clip_locator_bbox`'s box run through `_clip_to_bbox`. -/
def clipRegionOf (b : BBoxQ) (pad minH maxH : Rat) : ClipRegion :=
  clipToBBoxRegion (locatorClipBox b pad minH maxH)

/-- The `(pad, min_h, max_h)` triples `_clip_locator_bbox` is invoked with
(capture.py lines 269, 303, 343). -/
structure ClipParams where
  pad : Rat
  minH : Rat
  maxH : Rat
deriving DecidableEq

def clipCallParams : List ClipParams := [⟨24, 650, 980⟩, ⟨18, 520, 980⟩]

/-- C5 exactly as claimed: every computed clip region has non-negative `x, y`
and both width and height clamped into `[minH, maxH]`. -/
def claimC5Prop : Prop :=
  ∀ (b : BBoxQ), ∀ p ∈ clipCallParams,
    0 ≤ (clipRegionOf b p.pad p.minH p.maxH).x ∧
    0 ≤ (clipRegionOf b p.pad p.minH p.maxH).y ∧
    (p.minH ≤ (clipRegionOf b p.pad p.minH p.maxH).w ∧
      (clipRegionOf b p.pad p.minH p.maxH).w ≤ p.maxH) ∧
    (p.minH ≤ (clipRegionOf b p.pad p.minH p.maxH).h ∧
      (clipRegionOf b p.pad p.minH p.maxH).h ≤ p.maxH)

/-- C5 counterexample: a degenerate zero-size bounding box yields clip width
`max 50 (0 + 48) = 50`, which is not in `[650, 980]` — the code clamps only
the height into `[min_h, max_h]`; the width is merely floored at 50. -/
theorem clip_width_not_clamped : ¬ claimC5Prop := by
  intro hcl
  have h := (hcl ⟨0, 0, 0, 0⟩ ⟨24, 650, 980⟩ (List.mem_cons_self _ _)).2.2.1.1
  have hw : (clipRegionOf ⟨0, 0, 0, 0⟩ (24 : Rat) 650 980).w = 50 := by
    simp only [clipRegionOf, clipToBBoxRegion, locatorClipBox]
    norm_num [max_def]
  rw [hw] at h
  norm_num at h

/-- C5 amended: for any input bounding box (including degenerate ones) and any
padding, provided `50 ≤ minH ≤ maxH` (true at every call site), the computed
clip region has `x, y ≥ 0`, height clamped into `[minH, maxH]`, and width
floored at 50 (the width is not clamped into `[minH, maxH]`). -/
theorem clipRegion_bounds (b : BBoxQ) (pad minH maxH : Rat)
    (h50 : 50 ≤ minH) (hmm : minH ≤ maxH) :
    0 ≤ (clipRegionOf b pad minH maxH).x ∧
    0 ≤ (clipRegionOf b pad minH maxH).y ∧
    50 ≤ (clipRegionOf b pad minH maxH).w ∧
    minH ≤ (clipRegionOf b pad minH maxH).h ∧
    (clipRegionOf b pad minH maxH).h ≤ maxH := by
  have h1 : minH ≤ min (max (b.h + pad * 2) minH) maxH :=
    le_min (le_max_right _ _) hmm
  refine ⟨le_max_left 0 _, le_max_left 0 _, le_max_left 50 _, ?_, ?_⟩
  · exact le_trans h1 (le_max_right 50 _)
  · show max 50 (min (max (b.h + pad * 2) minH) maxH) ≤ maxH
    rw [max_eq_right (le_trans h50 h1)]
    exact min_le_right _ _

theorem clipRegion_bounds_witness :
    0 ≤ (clipRegionOf ⟨-100, -5, 0, 0⟩ 24 650 980).x ∧
    0 ≤ (clipRegionOf ⟨-100, -5, 0, 0⟩ 24 650 980).y ∧
    50 ≤ (clipRegionOf ⟨-100, -5, 0, 0⟩ 24 650 980).w ∧
    650 ≤ (clipRegionOf ⟨-100, -5, 0, 0⟩ 24 650 980).h ∧
    (clipRegionOf ⟨-100, -5, 0, 0⟩ 24 650 980).h ≤ 980 :=
  clipRegion_bounds ⟨-100, -5, 0, 0⟩ 24 650 980 (by norm_num) (by norm_num)

/-! ## Call-signature surface of `capture_pdp`.

`capture.py` line 202 declares `def capture_pdp(url: str, out_root: str = "out")`;
`run_audit.py` line 19 calls `capture_pdp(url, locale=...)` and `app.py`
lines 64-68 call `capture_pdp(url, out_root=..., locale=...)`.  A Python call
with a keyword argument not among the callee's parameters (and no `**kwargs`)
raises `TypeError`. -/

def capture_pdp_params : List String := ["url", "out_root"]

/-- Keyword arguments of the `capture_pdp` call in `run_audit.main`. -/
def run_audit_capture_kwargs : List String := ["locale"]

/-- Keyword arguments of the `capture_pdp` call in `app.run_audit`. -/
def app_capture_kwargs : List String := ["out_root", "locale"]

/-- The `locale=` literal hard-coded at `browser.new_context(...)`
(capture.py line 217). -/
def newContextLocale : String := "en-GB"

def acceptsKeyword (params : List String) (kw : String) : Bool := params.contains kw

def unexpectedKeywords (params kwargs : List String) : List String :=
  kwargs.filter (fun k => !params.contains k)

def callRaisesTypeError (params kwargs : List String) : Bool :=
  !(unexpectedKeywords params kwargs).isEmpty

/-- C2: `capture_pdp` does not accept a `locale` keyword at all — both in-repo
call sites pass one, so each call raises `TypeError`, and the browser-context
locale is the hard-coded literal `"en-GB"` rather than the caller's region
locale. -/
theorem capture_pdp_locale_not_accepted :
    acceptsKeyword capture_pdp_params "locale" = false ∧
    callRaisesTypeError capture_pdp_params run_audit_capture_kwargs = true ∧
    callRaisesTypeError capture_pdp_params app_capture_kwargs = true ∧
    unexpectedKeywords capture_pdp_params app_capture_kwargs = ["locale"] ∧
    newContextLocale = "en-GB" := by
  decide

/-! ## Artifact key sets: producer (`capture_pdp`) vs consumer (`analyze`). -/

/-- The `image_keys` list of `analyze` (analyze.py line 39). -/
def analyzeImageKeys : List String :=
  ["full_page", "care_view", "size_fit_view", "size_chart_view"]

/-- C3 exactly as claimed: the key set produced by `capture_pdp` equals the
key set the analysis consumer reads from the bundle. -/
def claimC3Prop : Prop :=
  ∀ shotsDir : String,
    ((capturePaths shotsDir).map Prod.fst).toFinset = analyzeImageKeys.toFinset

/-- C3 counterexample: the produced key set differs from the consumed one
(`details_view` is produced but never read; `size_fit_view` is read but never
produced). -/
theorem capture_analyze_key_sets_differ : ¬ claimC3Prop :=
  fun h => absurd (h "s") (by decide)

/-- C3 amended: `capture_pdp` produces the first fixed profile
`{full_page, details_view, care_view, size_chart_view}` while `analyze`
consumes the second fixed profile
`{full_page, care_view, size_fit_view, size_chart_view}`; the two key sets are
not equal — only `{full_page, care_view, size_chart_view}` is shared, so
`details_view` is captured but never analyzed and `size_fit_view` is requested
but never captured. -/
theorem capture_and_analyze_use_different_profiles (shotsDir : String) :
    (capturePaths shotsDir).map Prod.fst =
      ["full_page", "details_view", "care_view", "size_chart_view"] ∧
    analyzeImageKeys = ["full_page", "care_view", "size_fit_view", "size_chart_view"] ∧
    ((capturePaths shotsDir).map Prod.fst).toFinset ≠ analyzeImageKeys.toFinset ∧
    ((capturePaths shotsDir).map Prod.fst).toFinset ∩ analyzeImageKeys.toFinset =
      {"full_page", "care_view", "size_chart_view"} := by
  have h1 : (capturePaths shotsDir).map Prod.fst =
      ["full_page", "details_view", "care_view", "size_chart_view"] := rfl
  refine ⟨h1, rfl, ?_, ?_⟩
  · rw [h1]; decide
  · rw [h1]; decide

/-! ## The section locator `_best_trigger`.

`_best_trigger` builds one Playwright locator out of four comma-separated
alternatives — `button:has-text(name)`, `summary:has-text(name)`,
`[role='button']:has-text(name)` and the text pattern matching the name
exactly (case-insensitive) — and takes `.first`.  A comma-separated Playwright
locator matches the union of its alternatives, and `.first` is the first
matching element in document order.  The live page is modelled as the list of
its elements in document order; `:has-text` is case-insensitive substring
matching on the element text. -/

structure DomElem where
  tag : String
  role : String
  text : String
deriving DecidableEq

def lowerChars (s : String) : List Char := s.data.map Char.toLower

def charsPrefix : List Char → List Char → Bool
  | [], _ => true
  | _ :: _, [] => false
  | a :: as, b :: bs => a == b && charsPrefix as bs

def charsContain (ned : List Char) : List Char → Bool
  | [] => ned.isEmpty
  | c :: rest => charsPrefix ned (c :: rest) || charsContain ned rest

def hasTextCI (e : DomElem) (name : String) : Bool :=
  charsContain (lowerChars name) (lowerChars e.text)

def textExactCI (e : DomElem) (name : String) : Bool :=
  lowerChars e.text == lowerChars name

def matchButton (name : String) (e : DomElem) : Bool :=
  e.tag == "button" && hasTextCI e name

def matchSummary (name : String) (e : DomElem) : Bool :=
  e.tag == "summary" && hasTextCI e name

def matchRoleButton (name : String) (e : DomElem) : Bool :=
  e.role == "button" && hasTextCI e name

def matchTextAnchor (name : String) (e : DomElem) : Bool :=
  textExactCI e name

def matchAnyTrigger (name : String) (e : DomElem) : Bool :=
  matchButton name e || matchSummary name e || matchRoleButton name e ||
    matchTextAnchor name e

/-- Embedding of `_best_trigger` (capture.py lines 195-199): one union locator
over the four alternatives, `.first` in document order. -/
def best_trigger (page : List DomElem) (name : String) : Option DomElem :=
  page.find? (matchAnyTrigger name)

/-- Modelled from the spec: resolution by strategy priority — all expandable
buttons first, then disclosure summaries, then generic clickable-role
elements, and a text anchor only when no trigger exists. -/
def specPriorityTrigger (page : List DomElem) (name : String) : Option DomElem :=
  (page.find? (matchButton name)).orElse fun _ =>
    (page.find? (matchSummary name)).orElse fun _ =>
      (page.find? (matchRoleButton name)).orElse fun _ =>
        page.find? (matchTextAnchor name)

/-- C6 exactly as claimed: the locator resolves by trying the strategies in
priority order, first strategy with a match winning. -/
def claimC6Prop : Prop :=
  ∀ (page : List DomElem) (name : String),
    best_trigger page name = specPriorityTrigger page name

/-- C6 counterexample: on a page whose disclosure summary precedes a matching
button in document order, `_best_trigger` returns the summary (first match of
the union in document order), while strategy-priority resolution would return
the button. -/
theorem best_trigger_not_priority_order : ¬ claimC6Prop :=
  fun h =>
    absurd (h [⟨"summary", "", "Care"⟩, ⟨"button", "", "Care"⟩] "Care") (by decide)

/-- C6 amended: `_best_trigger` resolves a section name with a single union
query — it returns the first element in document order matching any of the
four patterns (button / summary / role-button containing the name, or exact
case-insensitive text), with no priority among the patterns, and returns no
element exactly when nothing on the page matches any pattern. -/
theorem best_trigger_first_dom_match (page : List DomElem) (name : String) :
    (best_trigger page name = none ↔
      ∀ e ∈ page, matchAnyTrigger name e = false) ∧
    (∀ e, best_trigger page name = some e →
      matchAnyTrigger name e = true ∧
      ∃ pre post, page = pre ++ e :: post ∧
        ∀ x ∈ pre, matchAnyTrigger name x = false) := by
  constructor
  · unfold best_trigger
    rw [List.find?_eq_none]
    constructor
    · intro h e he
      simpa using h e he
    · intro h e he
      simp [h e he]
  · intro e
    induction page with
    | nil => intro h; cases h
    | cons a as ih =>
      intro h
      have hcons : best_trigger (a :: as) name =
          (match matchAnyTrigger name a with
           | true => some a
           | false => best_trigger as name) := rfl
      rw [hcons] at h
      cases hpa : matchAnyTrigger name a with
      | true =>
        simp only [hpa] at h
        obtain rfl : a = e := by injection h
        exact ⟨hpa, [], as, rfl, fun x hx => absurd hx (List.not_mem_nil x)⟩
      | false =>
        simp only [hpa] at h
        obtain ⟨hme, pre, post, hsplit, hpre⟩ := ih h
        refine ⟨hme, a :: pre, post, by rw [hsplit]; rfl, ?_⟩
        intro x hx
        rcases List.mem_cons.mp hx with rfl | hx'
        · exact hpa
        · exact hpre x hx'

theorem best_trigger_first_dom_match_witness :
    matchAnyTrigger "Care" ⟨"summary", "", "Care"⟩ = true ∧
    best_trigger [⟨"summary", "", "Care"⟩, ⟨"button", "", "Care"⟩] "Care" =
      some ⟨"summary", "", "Care"⟩ :=
  ⟨((best_trigger_first_dom_match
      [⟨"summary", "", "Care"⟩, ⟨"button", "", "Care"⟩] "Care").2
      ⟨"summary", "", "Care"⟩ (by decide)).1,
   by decide⟩

/-! ## Container resolution `_section_container_from_trigger`.

The loop over the fixed six-candidate list (`ancestor-or-self::section[1]`,
the two accordion-class divs, then `div[1]`, `div[2]`, `div[3]`) is embedded
over the per-candidate examination outcome: the candidate query raised, the
candidate count was zero, the bounding box was absent, or a bounding box of
some width was measured. -/

inductive CandOutcome
  | raise
  | zeroCount
  | noBBox
  | box (w : Rat)
deriving DecidableEq

inductive ContainerChoice
  | cand (i : Nat)
  | trig
deriving DecidableEq

/-- The candidate loop of `_section_container_from_trigger`
(capture.py lines 92-102): skip empty candidates and absent boxes, accept the
first candidate at least 600 px wide, fall back to the trigger itself;
`i` is the position in the fixed candidate list. -/
def sectionContainerLoop : Nat → List CandOutcome → Option ContainerChoice
  | _, [] => some .trig
  | _, .raise :: _ => none
  | i, .zeroCount :: rest => sectionContainerLoop (i + 1) rest
  | i, .noBBox :: rest => sectionContainerLoop (i + 1) rest
  | i, .box w :: rest =>
      if 600 ≤ w then some (.cand i) else sectionContainerLoop (i + 1) rest

/-- Embedding of `_section_container_from_trigger` (capture.py lines 76-104):
the loop starting at the first candidate, the surrounding `try/except`
returning `None` on any raise. -/
def section_container_from_trigger (outs : List CandOutcome) : Option ContainerChoice :=
  sectionContainerLoop 0 outs

def isWide : CandOutcome → Bool
  | .box w => decide (600 ≤ w)
  | _ => false

def firstWideIdx : List CandOutcome → Option Nat
  | [] => none
  | o :: rest => if isWide o then some 0 else (firstWideIdx rest).map (· + 1)

theorem sectionContainerLoop_spec (outs : List CandOutcome) :
    ∀ i, CandOutcome.raise ∉ outs →
      sectionContainerLoop i outs =
        (match firstWideIdx outs with
         | some j => some (ContainerChoice.cand (i + j))
         | none => some ContainerChoice.trig) := by
  induction outs with
  | nil => intro i _; rfl
  | cons o rest ih =>
    intro i hmem
    have hrest : CandOutcome.raise ∉ rest := fun h => hmem (List.mem_cons_of_mem _ h)
    have hho : o ≠ CandOutcome.raise := fun h => hmem (h ▸ List.mem_cons_self _ _)
    cases o with
    | raise => exact absurd rfl hho
    | zeroCount =>
      show sectionContainerLoop (i + 1) rest = _
      rw [ih (i + 1) hrest]
      cases hfw : firstWideIdx rest <;> simp [firstWideIdx, isWide, hfw]
      omega
    | noBBox =>
      show sectionContainerLoop (i + 1) rest = _
      rw [ih (i + 1) hrest]
      cases hfw : firstWideIdx rest <;> simp [firstWideIdx, isWide, hfw]
      omega
    | box w =>
      by_cases hw : 600 ≤ w
      · show (if 600 ≤ w then some (ContainerChoice.cand i) else _) = _
        rw [if_pos hw]
        simp [firstWideIdx, isWide, hw]
      · show (if 600 ≤ w then some (ContainerChoice.cand i) else _) = _
        rw [if_neg hw, ih (i + 1) hrest]
        cases hfw : firstWideIdx rest <;> simp [firstWideIdx, isWide, hw, hfw]
        omega

theorem sectionContainerLoop_none (outs : List CandOutcome) :
    ∀ i, sectionContainerLoop i outs = none → CandOutcome.raise ∈ outs := by
  induction outs with
  | nil => intro i h; cases h
  | cons o rest ih =>
    intro i h
    cases o with
    | raise => exact List.mem_cons_self _ _
    | zeroCount => exact List.mem_cons_of_mem _ (ih (i + 1) h)
    | noBBox => exact List.mem_cons_of_mem _ (ih (i + 1) h)
    | box w =>
      by_cases hw : 600 ≤ w
      · rw [show sectionContainerLoop i (CandOutcome.box w :: rest) =
            (if 600 ≤ w then some (ContainerChoice.cand i) else
              sectionContainerLoop (i + 1) rest) from rfl, if_pos hw] at h
        cases h
      · rw [show sectionContainerLoop i (CandOutcome.box w :: rest) =
            (if 600 ≤ w then some (ContainerChoice.cand i) else
              sectionContainerLoop (i + 1) rest) from rfl, if_neg hw] at h
        exact List.mem_cons_of_mem _ (ih (i + 1) h)

/-- C10: when no candidate examination raises, container resolution returns the
first candidate (in the fixed section / accordion-div / 1st-2nd-3rd ancestor-div
order) whose bounding-box width is at least 600, and the trigger itself when no
candidate is that wide; an absent result occurs only when an exception was
raised during the walk. -/
theorem section_container_resolution (outs : List CandOutcome) :
    (CandOutcome.raise ∉ outs →
      section_container_from_trigger outs =
        (match firstWideIdx outs with
         | some j => some (ContainerChoice.cand j)
         | none => some ContainerChoice.trig)) ∧
    (section_container_from_trigger outs = none → CandOutcome.raise ∈ outs) := by
  constructor
  · intro h
    have := sectionContainerLoop_spec outs 0 h
    simpa using this
  · exact sectionContainerLoop_none outs 0

theorem section_container_resolution_witness :
    section_container_from_trigger
      [CandOutcome.zeroCount, CandOutcome.box 100, CandOutcome.noBBox,
        CandOutcome.box 700, CandOutcome.box 900] =
      some (ContainerChoice.cand 3) ∧
    section_container_from_trigger
      [CandOutcome.zeroCount, CandOutcome.box 100] = some ContainerChoice.trig := by
  constructor
  · have h := (section_container_resolution
      [CandOutcome.zeroCount, CandOutcome.box 100, CandOutcome.noBBox,
        CandOutcome.box 700, CandOutcome.box 900]).1 (by decide)
    simpa using h
  · have h := (section_container_resolution
      [CandOutcome.zeroCount, CandOutcome.box 100]).1 (by decide)
    simpa using h

/-! ## The `capture_pdp` run session.

The live page is an external resource: each primitive Playwright call either
returns a value or raises.  A `PageOracle` fixes the outcome of every
primitive call (indexed by a running call counter; screenshot calls have
their own counter), so quantifying over oracles quantifies over all page
behaviours.  The state also tracks the image files produced on disk and
whether the launched browser is currently held.  Python `try/except` keeps
the side effects performed before the raise, so the exception handler runs
in the state left by the failed prefix. -/

structure BrowserSt where
  k : Nat
  shots : Nat
  files : List String
  browserHeld : Bool
deriving DecidableEq

structure PageOracle where
  unitRes : Nat → Except Unit Unit
  natRes : Nat → Except Unit Nat
  bboxRes : Nat → Except Unit (Option BBoxQ)
  strRes : Nat → Except Unit String
  shotRes : Nat → Except Unit Unit

/-- Which source call site a propagated exception escaped from. -/
inductive Site
  | mkdirOut
  | pwStart
  | launchBrowser
  | newContext
  | newPage
  | gotoNav
  | fullPageShot
  | vpDetails
  | vpCare
  | vpSizeDialog
  | vpSizeNoDialog
  | vpSizeNotOpened
  | dialogCount
  | browserClose
  | countOp
  | scrollOp
  | clickOp
  | pressOp
  | waitOp
  | evalJs
  | innerTextOp
  | bboxOp
  | clipShot
  | wheelOp
deriving DecidableEq

def CaptM (α : Type) : Type := BrowserSt → Except Site α × BrowserSt

instance : Monad CaptM where
  pure a := fun s => (Except.ok a, s)
  bind x f := fun s =>
    match x s with
    | (Except.ok a, s') => f a s'
    | (Except.error e, s') => (Except.error e, s')

/-- Python `try: x except Exception: h`, keeping the state changes the failed
prefix of `x` already performed. -/
def attempt {α : Type} (x h : CaptM α) : CaptM α := fun s =>
  match x s with
  | (Except.ok a, s') => (Except.ok a, s')
  | (Except.error _, s') => h s'

def bumpK (s : BrowserSt) : BrowserSt := { s with k := s.k + 1 }

def opUnit (o : PageOracle) (site : Site) : CaptM Unit := fun s =>
  (match o.unitRes s.k with
   | Except.ok _ => Except.ok ()
   | Except.error _ => Except.error site, bumpK s)

def opNat (o : PageOracle) (site : Site) : CaptM Nat := fun s =>
  (match o.natRes s.k with
   | Except.ok n => Except.ok n
   | Except.error _ => Except.error site, bumpK s)

def opBBox (o : PageOracle) (site : Site) : CaptM (Option BBoxQ) := fun s =>
  (match o.bboxRes s.k with
   | Except.ok b => Except.ok b
   | Except.error _ => Except.error site, bumpK s)

def opStr (o : PageOracle) (site : Site) : CaptM String := fun s =>
  (match o.strRes s.k with
   | Except.ok v => Except.ok v
   | Except.error _ => Except.error site, bumpK s)

/-- `p.chromium.launch(headless=True)`: on success the browser is held. -/
def opLaunch (o : PageOracle) : CaptM Unit := fun s =>
  match o.unitRes s.k with
  | Except.ok _ => (Except.ok (), { bumpK s with browserHeld := true })
  | Except.error _ => (Except.error Site.launchBrowser, bumpK s)

/-- `browser.close()`: on success the browser is no longer held. -/
def opCloseBrowser (o : PageOracle) : CaptM Unit := fun s =>
  match o.unitRes s.k with
  | Except.ok _ => (Except.ok (), { bumpK s with browserHeld := false })
  | Except.error _ => (Except.error Site.browserClose, bumpK s)

/-- `browser.new_context(viewport=VIEWPORT, locale="en-GB")` — the viewport and
locale arguments are the hard-coded literals of capture.py lines 7 and 217. -/
def opNewContext (o : PageOracle) (_viewportW _viewportH : Nat) (_locale : String) :
    CaptM Unit := fun s =>
  (match o.unitRes s.k with
   | Except.ok _ => Except.ok ()
   | Except.error _ => Except.error Site.newContext, bumpK s)

/-- `page.screenshot(path=..)` in any mode: on success an image file is
produced at `path`. -/
def opShot (o : PageOracle) (site : Site) (path : String) : CaptM Unit := fun s =>
  match o.shotRes s.shots with
  | Except.ok _ => (Except.ok (), { s with shots := s.shots + 1, files := path :: s.files })
  | Except.error _ => (Except.error site, { s with shots := s.shots + 1 })

/-- A clipped screenshot: the clip rectangle is computed from the bounding box
but does not influence whether the call succeeds. -/
def opShotClip (o : PageOracle) (site : Site) (_clip : ClipRegion) (path : String) :
    CaptM Unit :=
  opShot o site path

/-- Exit of `with sync_playwright() as p`: `p.stop()` terminates the driver
and every browser launched from it, on normal and exceptional exits alike. -/
def withPlaywright {α : Type} (body : CaptM α) : CaptM α := fun s =>
  match body s with
  | (r, s') => (r, { s' with browserHeld := false })

/-- The 12 dialog-scoped close selectors of `dismiss_overlays`
(capture.py lines 117-130). -/
def dialogCloseSelectors : List String :=
  ["[role=\x27dialog\x27] button[aria-label=\x27Close\x27]",
   "[role=\x27dialog\x27] [aria-label=\x27Close\x27]",
   "[role=\x27dialog\x27] button:has-text(\x27Close\x27)",
   "[role=\x27dialog\x27] button:has-text(\x27No Thanks\x27)",
   "[role=\x27dialog\x27] button:has-text(\x27No thanks\x27)",
   "[role=\x27dialog\x27] button:has-text(\x27Not now\x27)",
   ".modal button[aria-label=\x27Close\x27]",
   ".modal [aria-label=\x27Close\x27]",
   "button[aria-label=\x27Close\x27]",
   "[aria-label=\x27Close\x27]",
   "button[title=\x27Close\x27]",
   "[title=\x27Close\x27]"]

/-- The 10 page-level consent/marketing selectors (capture.py lines 134-144). -/
def consentSelectors : List String :=
  ["button:has-text(\x27No thanks\x27)",
   "button:has-text(\x27No Thanks\x27)",
   "button:has-text(\x27Not now\x27)",
   "button:has-text(\x27Reject all\x27)",
   "button:has-text(\x27Reject All\x27)",
   "button:has-text(\x27Decline\x27)",
   "button:has-text(\x27Got it\x27)",
   "button:has-text(\x27Accept\x27)",
   "button:has-text(\x27Accept all\x27)",
   "button:has-text(\x27Accept All\x27)"]

/-- The 7 show-more/read-more selectors (capture.py lines 226-234). -/
def showMoreSelectors : List String :=
  ["button:has-text(\x27Show more\x27)",
   "button:has-text(\x27Show More\x27)",
   "button:has-text(\x27Read more\x27)",
   "button:has-text(\x27Read More\x27)",
   "text show more",
   "text read more",
   "text more details"]

/-- The 6 size-chart/size-guide selectors (capture.py lines 324-331). -/
def sizeChartSelectors : List String :=
  ["a:has-text(\x27Size Chart\x27)",
   "button:has-text(\x27Size Chart\x27)",
   "text size chart",
   "a:has-text(\x27Size Guide\x27)",
   "button:has-text(\x27Size Guide\x27)",
   "text size guide"]

/-- Embedding of `_click_first` (capture.py lines 18-29): per selector, count
the matches, scroll and click the first; a zero count or any exception moves
on to the next selector; the first successful click returns `True`. -/
def click_first (o : PageOracle) : List String → CaptM Bool
  | [] => pure false
  | _sel :: rest => do
      let hit ← attempt
        (do
          let c ← opNat o Site.countOp
          if c = 0 then
            pure false
          else do
            opUnit o Site.scrollOp
            opUnit o Site.clickOp
            pure true)
        (pure false)
      if hit then pure true else click_first o rest

/-- One pass of the `dismiss_overlays` loop (capture.py lines 114-190);
returns whether the loop continues to another pass. -/
def overlayPass (o : PageOracle) : CaptM Bool := do
  let d1 ← click_first o dialogCloseSelectors
  let d2 ← click_first o consentSelectors
  let dismissed := d1 || d2
  attempt (opUnit o Site.pressOp) (pure ())
  attempt (opUnit o Site.waitOp) (pure ())
  if dismissed then
    pure true
  else do
    let hasDialog ← attempt
      (do
        let c ← opNat o Site.countOp
        pure (decide (0 < c)))
      (pure false)
    if hasDialog then attempt (opUnit o Site.evalJs) (pure ()) else pure ()
    pure false

/-- The `for _ in range(3)` loop of `dismiss_overlays`; returns the number of
passes executed. -/
def overlayLoop (o : PageOracle) : Nat → CaptM Nat
  | 0 => pure 0
  | n + 1 => do
      let cont ← overlayPass o
      if cont then do
        let m ← overlayLoop o n
        pure (m + 1)
      else
        pure 1

/-- Embedding of `dismiss_overlays` (capture.py lines 107-192): the loop under
an outer `try/except` that swallows everything. -/
def dismiss_overlays (o : PageOracle) : CaptM Nat :=
  attempt (overlayLoop o 3) (pure 0)

/-- Embedding of `_clip_to_bbox` (capture.py lines 36-47). -/
def clip_to_bbox (o : PageOracle) (b : BBoxQ) (path : String) : CaptM Bool :=
  attempt
    (do
      opShotClip o Site.clipShot (clipToBBoxRegion b) path
      pure true)
    (pure false)

/-- Embedding of `_clip_locator_bbox` (capture.py lines 50-73). -/
def clip_locator_bbox (o : PageOracle) (path : String) (pad minH maxH : Rat) :
    CaptM Bool :=
  attempt
    (do
      let c ← opNat o Site.countOp
      if c = 0 then pure false
      else do
        opUnit o Site.scrollOp
        let bb ← opBBox o Site.bboxOp
        match bb with
        | none => pure false
        | some b => clip_to_bbox o (locatorClipBox b pad minH maxH) path)
    (pure false)

/-- The candidate walk of `_section_container_from_trigger` against the live
page: same loop as `sectionContainerLoop`, with the per-candidate outcome
read from the oracle (`n` counts the remaining candidates out of 6). -/
def sectionContainerGo (o : PageOracle) : Nat → CaptM (Option ContainerChoice)
  | 0 => pure (some ContainerChoice.trig)
  | n + 1 => do
      let c ← opNat o Site.countOp
      if c = 0 then sectionContainerGo o n
      else do
        let bb ← opBBox o Site.bboxOp
        match bb with
        | none => sectionContainerGo o n
        | some b =>
            if 600 ≤ b.w then pure (some (ContainerChoice.cand (6 - (n + 1))))
            else sectionContainerGo o n

/-- `_section_container_from_trigger` run against the live page: the walk over
the fixed six candidates under `try/except`, `None` on a raise. -/
def sectionContainerM (o : PageOracle) : CaptM (Option ContainerChoice) :=
  attempt (sectionContainerGo o 6) (pure none)

/-- The best-effort Details expansion (capture.py lines 238-244). -/
def expandDetailsTrigger (o : PageOracle) : CaptM Unit :=
  attempt
    (do
      let c ← opNat o Site.countOp
      if 0 < c then do
        opUnit o Site.scrollOp
        opUnit o Site.clickOp
      else pure ())
    (pure ())

/-- Python whitespace as stripped by `str.strip()`. -/
def isPySpace (c : Char) : Bool :=
  c == ' ' || c == '\t' || c == '\n' || c == '\r' || c == '\x0b' || c == '\x0c'

/-- Python `str.strip()` with no argument: drop leading and trailing
whitespace. -/
def pyStrip (s : String) : String :=
  String.mk (((s.data.dropWhile isPySpace).reverse.dropWhile isPySpace).reverse)

/-- capture.py lines 216-260: launch, context, page, navigation, overlay
passes, show-more and Details expansion, the full-page baseline screenshot
(not inside any `try`), and the visible-text excerpt. -/
def capturePreamble (o : PageOracle) (pFull : String) : CaptM String := do
  opLaunch o
  opNewContext o 1440 900 newContextLocale
  opUnit o Site.newPage
  opUnit o Site.gotoNav
  let _ ← dismiss_overlays o
  let _ ← click_first o showMoreSelectors
  expandDetailsTrigger o
  let _ ← dismiss_overlays o
  attempt (opUnit o Site.waitOp) (pure ())
  opShot o Site.fullPageShot pFull
  let vt ← attempt (opStr o Site.innerTextOp) (pure "")
  pure (String.mk ((pyStrip vt).data.take 12000))

/-- The Details clipped view (capture.py lines 262-279): container clip under
`try/except`, viewport screenshot fallback (the fallback screenshot itself is
not inside any `try`). -/
def detailsBlock (o : PageOracle) (pDet : String) : CaptM Unit := do
  let _ ← dismiss_overlays o
  let detailsOk ← attempt
    (do
      let c ← opNat o Site.countOp
      if 0 < c then do
        let cont ← sectionContainerM o
        match cont with
        | some _ => do
            let c2 ← opNat o Site.countOp
            if 0 < c2 then clip_locator_bbox o pDet 24 650 980 else pure false
        | none => pure false
      else pure false)
    (pure false)
  if detailsOk then pure ()
  else do
    attempt
      (do
        let c ← opNat o Site.countOp
        if 0 < c then opUnit o Site.scrollOp else pure ())
      (pure ())
    opShot o Site.vpDetails pDet

/-- The Care clipped view (capture.py lines 281-313). -/
def careBlock (o : PageOracle) (pCare : String) : CaptM Unit := do
  let _ ← dismiss_overlays o
  let careOk ← attempt
    (do
      let c ← opNat o Site.countOp
      if 0 < c then do
        opUnit o Site.scrollOp
        attempt (opUnit o Site.clickOp) (pure ())
        attempt (opUnit o Site.waitOp) (pure ())
        let _ ← dismiss_overlays o
        let cont ← sectionContainerM o
        match cont with
        | some _ => do
            let c2 ← opNat o Site.countOp
            if 0 < c2 then clip_locator_bbox o pCare 24 650 980 else pure false
        | none => pure false
      else pure false)
    (pure false)
  if careOk then pure ()
  else do
    attempt (opUnit o Site.wheelOp) (pure ())
    opShot o Site.vpCare pCare

/-- The size-chart view (capture.py lines 315-348): scroll to top, open the
chart, clip the dialog if one is present (its `count()` call is not inside
any `try`), otherwise a viewport screenshot. -/
def sizeChartBlock (o : PageOracle) (pSize : String) : CaptM Unit := do
  attempt (opUnit o Site.evalJs) (pure ())
  let _ ← dismiss_overlays o
  let opened ← click_first o sizeChartSelectors
  if opened then do
    attempt (opUnit o Site.waitOp) (pure ())
    let _ ← dismiss_overlays o
    let dc ← opNat o Site.dialogCount
    if 0 < dc then do
      let ok ← clip_locator_bbox o pSize 18 520 980
      if ok then pure () else opShot o Site.vpSizeDialog pSize
    else
      opShot o Site.vpSizeNoDialog pSize
  else
    opShot o Site.vpSizeNotOpened pSize

/-- The body of the `with sync_playwright()` block (capture.py lines 216-350),
returning the visible-text excerpt. -/
def captureBody (o : PageOracle) (pFull pDet pCare pSize : String) : CaptM String := do
  let vt ← capturePreamble o pFull
  detailsBlock o pDet
  careBlock o pCare
  sizeChartBlock o pSize
  opCloseBrowser o
  pure vt

structure EvidenceBundle where
  url : String
  runId : String
  outDir : String
  shotsDir : String
  paths : List (String × String)
  visibleText : String
deriving DecidableEq

def lookupPath (paths : List (String × String)) (key : String) : String :=
  (paths.lookup key).getD ""

/-- Embedding of `capture_pdp` (capture.py lines 202-359). -/
def capture_pdp (o : PageOracle) (url outRoot : String) :
    CaptM (String × EvidenceBundle) := do
  let runId := sha8 url
  let outDir := pjoin outRoot runId
  let shotsDir := pjoin outDir "screenshots"
  opUnit o Site.mkdirOut
  let paths := capturePaths shotsDir
  opUnit o Site.pwStart
  let vt ← withPlaywright
    (captureBody o (lookupPath paths "full_page") (lookupPath paths "details_view")
      (lookupPath paths "care_view") (lookupPath paths "size_chart_view"))
  pure (runId, ⟨url, runId, outDir, shotsDir, paths, vt⟩)

/-- An oracle on which every primitive call succeeds (no sections or dialogs
found, empty text). -/
def oracleAllOk : PageOracle :=
  ⟨fun _ => Except.ok (), fun _ => Except.ok 0, fun _ => Except.ok none,
   fun _ => Except.ok "", fun _ => Except.ok ()⟩

/-- An oracle on which every call succeeds except every screenshot after the
first (so the baseline succeeds and the Details viewport fallback raises). -/
def oracleShotFail : PageOracle :=
  ⟨fun _ => Except.ok (), fun _ => Except.ok 0, fun _ => Except.ok none,
   fun _ => Except.ok "",
   fun n => if n == 0 then Except.ok () else Except.error ()⟩

/-- An oracle on which the sixth unit-returning call — `page.goto` — raises. -/
def oracleNavFail : PageOracle :=
  ⟨fun k => if k == 5 then Except.error () else Except.ok (),
   fun _ => Except.ok 0, fun _ => Except.ok none, fun _ => Except.ok "",
   fun _ => Except.ok ()⟩

def st0 : BrowserSt := ⟨0, 0, [], false⟩

/-! ## Generic facts about the run monad. -/

theorem run_bind {α β : Type} (x : CaptM α) (f : α → CaptM β) (s : BrowserSt) :
    (x >>= f) s =
      (match x s with
       | (Except.ok a, s₁) => f a s₁
       | (Except.error e, s₁) => (Except.error e, s₁)) := rfl

theorem run_pure {α : Type} (a : α) (s : BrowserSt) :
    (pure a : CaptM α) s = (Except.ok a, s) := rfl

theorem bind_ok_destruct {α β : Type} {x : CaptM α} {f : α → CaptM β}
    {s s₂ : BrowserSt} {b : β} (h : (x >>= f) s = (Except.ok b, s₂)) :
    ∃ a s₁, x s = (Except.ok a, s₁) ∧ f a s₁ = (Except.ok b, s₂) := by
  rw [run_bind] at h
  rcases hx : x s with ⟨r, s₁⟩
  rw [hx] at h
  cases r with
  | ok a => exact ⟨a, s₁, rfl, h⟩
  | error e => exact Except.noConfusion (congrArg Prod.fst h)

theorem attempt_ok_destruct {α : Type} {x h : CaptM α} {s s' : BrowserSt} {a : α}
    (hr : attempt x h s = (Except.ok a, s')) :
    x s = (Except.ok a, s') ∨
      ∃ e s₁, x s = (Except.error e, s₁) ∧ h s₁ = (Except.ok a, s') := by
  unfold attempt at hr
  rcases hx : x s with ⟨r, s₁⟩
  rw [hx] at hr
  cases r with
  | ok a' => exact Or.inl hr
  | error e => exact Or.inr ⟨e, s₁, rfl, hr⟩

/-- Computations that never propagate an exception. -/
def NoErr {α : Type} (m : CaptM α) : Prop :=
  ∀ s, ∃ a s', m s = (Except.ok a, s')

theorem noErr_pure {α : Type} (a : α) : NoErr (pure a : CaptM α) :=
  fun s => ⟨a, s, rfl⟩

theorem noErr_bind {α β : Type} {x : CaptM α} {f : α → CaptM β}
    (hx : NoErr x) (hf : ∀ a, NoErr (f a)) : NoErr (x >>= f) := by
  intro s
  obtain ⟨a, s₁, hxs⟩ := hx s
  obtain ⟨b, s₂, hfs⟩ := hf a s₁
  refine ⟨b, s₂, ?_⟩
  rw [run_bind, hxs]
  exact hfs

theorem noErr_attempt {α : Type} (x : CaptM α) {h : CaptM α} (hh : NoErr h) :
    NoErr (attempt x h) := by
  intro s
  rcases hx : x s with ⟨r, s₁⟩
  cases r with
  | ok a => exact ⟨a, s₁, by simp only [attempt, hx]⟩
  | error e =>
    obtain ⟨a, s₂, ha⟩ := hh s₁
    exact ⟨a, s₂, by simp only [attempt, hx]; exact ha⟩

theorem noErr_click_first (o : PageOracle) (sels : List String) :
    NoErr (click_first o sels) := by
  induction sels with
  | nil => exact noErr_pure false
  | cons sel rest ih =>
    refine noErr_bind (noErr_attempt _ (noErr_pure false)) (fun hit => ?_)
    cases hit with
    | true => exact noErr_pure true
    | false => exact ih

theorem noErr_overlayPass (o : PageOracle) : NoErr (overlayPass o) := by
  unfold overlayPass
  refine noErr_bind (noErr_click_first o _) (fun d1 => ?_)
  refine noErr_bind (noErr_click_first o _) (fun d2 => ?_)
  refine noErr_bind (noErr_attempt _ (noErr_pure ())) (fun _ => ?_)
  refine noErr_bind (noErr_attempt _ (noErr_pure ())) (fun _ => ?_)
  cases hd : d1 || d2 with
  | true => exact noErr_pure true
  | false =>
    refine noErr_bind (noErr_attempt _ (noErr_pure false)) (fun hasDialog => ?_)
    cases hasDialog with
    | true => exact noErr_bind (noErr_attempt _ (noErr_pure ())) (fun _ => noErr_pure false)
    | false => exact noErr_bind (noErr_pure ()) (fun _ => noErr_pure false)

theorem overlayLoop_succ (o : PageOracle) (n : Nat) :
    overlayLoop o (n + 1) =
      (overlayPass o >>= fun cont =>
        if cont then (overlayLoop o n >>= fun m => pure (m + 1)) else pure 1) := rfl

theorem overlayLoop_ok_le (o : PageOracle) :
    ∀ n s, ∃ m s', overlayLoop o n s = (Except.ok m, s') ∧ m ≤ n := by
  intro n
  induction n with
  | zero => intro s; exact ⟨0, s, rfl, Nat.le_refl 0⟩
  | succ n ih =>
    intro s
    obtain ⟨cont, s₁, hp⟩ := noErr_overlayPass o s
    cases cont with
    | true =>
      obtain ⟨m, s₂, hl, hm⟩ := ih s₁
      refine ⟨m + 1, s₂, ?_, by omega⟩
      rw [overlayLoop_succ, run_bind, hp]
      show (overlayLoop o n >>= fun m => pure (m + 1)) s₁ = (Except.ok (m + 1), s₂)
      rw [run_bind, hl]
      rfl
    | false =>
      refine ⟨1, s₁, ?_, by omega⟩
      rw [overlayLoop_succ, run_bind, hp]
      rfl

theorem noErr_dismiss_overlays (o : PageOracle) : NoErr (dismiss_overlays o) :=
  noErr_attempt _ (noErr_pure 0)

/-- C8: `dismiss_overlays` returns normally on every page behaviour — no
dialog present, stacked dialogs kept re-appearing, no close affordance
matching, or any primitive page operation failing — and it runs at most 3
passes of its loop. -/
theorem dismiss_overlays_never_raises (o : PageOracle) (s : BrowserSt) :
    ∃ n s', dismiss_overlays o s = (Except.ok n, s') ∧ n ≤ 3 := by
  obtain ⟨n, s', h, hn⟩ := overlayLoop_ok_le o 3 s
  refine ⟨n, s', ?_, hn⟩
  unfold dismiss_overlays
  simp only [attempt, h]

/-! ## Which call sites can propagate an exception out of `capture_pdp`. -/

def ErrWithin {α : Type} (m : CaptM α) (sites : List Site) : Prop :=
  ∀ s e, (m s).1 = Except.error e → e ∈ sites

theorem errWithin_of_noErr {α : Type} {m : CaptM α} (h : NoErr m) (sites : List Site) :
    ErrWithin m sites := by
  intro s e he
  obtain ⟨a, s', ha⟩ := h s
  rw [ha] at he
  exact Except.noConfusion he

theorem errWithin_bind {α β : Type} {x : CaptM α} {f : α → CaptM β} {S : List Site}
    (hx : ErrWithin x S) (hf : ∀ a, ErrWithin (f a) S) : ErrWithin (x >>= f) S := by
  intro s e he
  rw [run_bind] at he
  rcases hxs : x s with ⟨r, s₁⟩
  rw [hxs] at he
  cases r with
  | ok a => exact hf a s₁ e he
  | error e' =>
    have heq : e' = e := Except.error.inj he
    exact heq ▸ hx s e' (by rw [hxs])

theorem errWithin_attempt {α : Type} {x h : CaptM α} {S : List Site}
    (hh : ErrWithin h S) : ErrWithin (attempt x h) S := by
  intro s e he
  unfold attempt at he
  rcases hxs : x s with ⟨r, s₁⟩
  rw [hxs] at he
  cases r with
  | ok a => exact Except.noConfusion he
  | error e' => exact hh s₁ e he

theorem errWithin_opUnit (o : PageOracle) (site : Site) {S : List Site} (hs : site ∈ S) :
    ErrWithin (opUnit o site) S := by
  intro s e he
  unfold opUnit at he
  cases hr : o.unitRes s.k with
  | ok u => rw [hr] at he; exact Except.noConfusion he
  | error u => rw [hr] at he; exact Except.error.inj he ▸ hs

theorem errWithin_opNat (o : PageOracle) (site : Site) {S : List Site} (hs : site ∈ S) :
    ErrWithin (opNat o site) S := by
  intro s e he
  unfold opNat at he
  cases hr : o.natRes s.k with
  | ok u => rw [hr] at he; exact Except.noConfusion he
  | error u => rw [hr] at he; exact Except.error.inj he ▸ hs

theorem errWithin_opLaunch (o : PageOracle) {S : List Site}
    (hs : Site.launchBrowser ∈ S) : ErrWithin (opLaunch o) S := by
  intro s e he
  unfold opLaunch at he
  cases hr : o.unitRes s.k with
  | ok u => rw [hr] at he; exact Except.noConfusion he
  | error u => rw [hr] at he; exact Except.error.inj he ▸ hs

theorem errWithin_opCloseBrowser (o : PageOracle) {S : List Site}
    (hs : Site.browserClose ∈ S) : ErrWithin (opCloseBrowser o) S := by
  intro s e he
  unfold opCloseBrowser at he
  cases hr : o.unitRes s.k with
  | ok u => rw [hr] at he; exact Except.noConfusion he
  | error u => rw [hr] at he; exact Except.error.inj he ▸ hs

theorem errWithin_opNewContext (o : PageOracle) (w h : Nat) (loc : String) {S : List Site}
    (hs : Site.newContext ∈ S) : ErrWithin (opNewContext o w h loc) S := by
  intro s e he
  unfold opNewContext at he
  cases hr : o.unitRes s.k with
  | ok u => rw [hr] at he; exact Except.noConfusion he
  | error u => rw [hr] at he; exact Except.error.inj he ▸ hs

theorem errWithin_opShot (o : PageOracle) (site : Site) (path : String) {S : List Site}
    (hs : site ∈ S) : ErrWithin (opShot o site path) S := by
  intro s e he
  unfold opShot at he
  cases hr : o.shotRes s.shots with
  | ok u => rw [hr] at he; exact Except.noConfusion he
  | error u => rw [hr] at he; exact Except.error.inj he ▸ hs

theorem errWithin_withPlaywright {α : Type} {body : CaptM α} {S : List Site}
    (hb : ErrWithin body S) : ErrWithin (withPlaywright body) S := by
  intro s e he
  unfold withPlaywright at he
  rcases hbs : body s with ⟨r, s₁⟩
  rw [hbs] at he
  exact hb s e (by rw [hbs]; exact he)

theorem noErr_clip_to_bbox (o : PageOracle) (b : BBoxQ) (path : String) :
    NoErr (clip_to_bbox o b path) :=
  noErr_attempt _ (noErr_pure false)

theorem noErr_clip_locator_bbox (o : PageOracle) (path : String) (pad minH maxH : Rat) :
    NoErr (clip_locator_bbox o path pad minH maxH) :=
  noErr_attempt _ (noErr_pure false)

theorem noErr_sectionContainerM (o : PageOracle) : NoErr (sectionContainerM o) :=
  noErr_attempt _ (noErr_pure none)

theorem noErr_expandDetailsTrigger (o : PageOracle) : NoErr (expandDetailsTrigger o) :=
  noErr_attempt _ (noErr_pure ())

theorem errWithin_capturePreamble (o : PageOracle) (pFull : String) {S : List Site}
    (h1 : Site.launchBrowser ∈ S) (h2 : Site.newContext ∈ S) (h3 : Site.newPage ∈ S)
    (h4 : Site.gotoNav ∈ S) (h5 : Site.fullPageShot ∈ S) :
    ErrWithin (capturePreamble o pFull) S := by
  unfold capturePreamble
  refine errWithin_bind (errWithin_opLaunch o h1) (fun _ => ?_)
  refine errWithin_bind (errWithin_opNewContext o _ _ _ h2) (fun _ => ?_)
  refine errWithin_bind (errWithin_opUnit o Site.newPage h3) (fun _ => ?_)
  refine errWithin_bind (errWithin_opUnit o Site.gotoNav h4) (fun _ => ?_)
  refine errWithin_bind (errWithin_of_noErr (noErr_dismiss_overlays o) S) (fun _ => ?_)
  refine errWithin_bind (errWithin_of_noErr (noErr_click_first o _) S) (fun _ => ?_)
  refine errWithin_bind (errWithin_of_noErr (noErr_expandDetailsTrigger o) S) (fun _ => ?_)
  refine errWithin_bind (errWithin_of_noErr (noErr_dismiss_overlays o) S) (fun _ => ?_)
  refine errWithin_bind (errWithin_of_noErr (noErr_attempt _ (noErr_pure ())) S) (fun _ => ?_)
  refine errWithin_bind (errWithin_opShot o Site.fullPageShot pFull h5) (fun _ => ?_)
  exact errWithin_bind (errWithin_of_noErr (noErr_attempt _ (noErr_pure "")) S)
    (fun vt => errWithin_of_noErr (noErr_pure _) S)

theorem errWithin_detailsBlock (o : PageOracle) (pDet : String) {S : List Site}
    (hvp : Site.vpDetails ∈ S) : ErrWithin (detailsBlock o pDet) S := by
  unfold detailsBlock
  refine errWithin_bind (errWithin_of_noErr (noErr_dismiss_overlays o) S) (fun _ => ?_)
  refine errWithin_bind (errWithin_of_noErr (noErr_attempt _ (noErr_pure false)) S)
    (fun detailsOk => ?_)
  cases detailsOk with
  | true => exact errWithin_of_noErr (noErr_pure ()) S
  | false =>
    exact errWithin_bind (errWithin_of_noErr (noErr_attempt _ (noErr_pure ())) S)
      (fun _ => errWithin_opShot o Site.vpDetails pDet hvp)

theorem errWithin_careBlock (o : PageOracle) (pCare : String) {S : List Site}
    (hvp : Site.vpCare ∈ S) : ErrWithin (careBlock o pCare) S := by
  unfold careBlock
  refine errWithin_bind (errWithin_of_noErr (noErr_dismiss_overlays o) S) (fun _ => ?_)
  refine errWithin_bind (errWithin_of_noErr (noErr_attempt _ (noErr_pure false)) S)
    (fun careOk => ?_)
  cases careOk with
  | true => exact errWithin_of_noErr (noErr_pure ()) S
  | false =>
    exact errWithin_bind (errWithin_of_noErr (noErr_attempt _ (noErr_pure ())) S)
      (fun _ => errWithin_opShot o Site.vpCare pCare hvp)

theorem errWithin_sizeChartBlock (o : PageOracle) (pSize : String) {S : List Site}
    (hdc : Site.dialogCount ∈ S) (hv1 : Site.vpSizeDialog ∈ S)
    (hv2 : Site.vpSizeNoDialog ∈ S) (hv3 : Site.vpSizeNotOpened ∈ S) :
    ErrWithin (sizeChartBlock o pSize) S := by
  unfold sizeChartBlock
  refine errWithin_bind (errWithin_of_noErr (noErr_attempt _ (noErr_pure ())) S) (fun _ => ?_)
  refine errWithin_bind (errWithin_of_noErr (noErr_dismiss_overlays o) S) (fun _ => ?_)
  refine errWithin_bind (errWithin_of_noErr (noErr_click_first o _) S) (fun opened => ?_)
  cases opened with
  | false => exact errWithin_opShot o Site.vpSizeNotOpened pSize hv3
  | true =>
    refine errWithin_bind (errWithin_of_noErr (noErr_attempt _ (noErr_pure ())) S) (fun _ => ?_)
    refine errWithin_bind (errWithin_of_noErr (noErr_dismiss_overlays o) S) (fun _ => ?_)
    refine errWithin_bind (errWithin_opNat o Site.dialogCount hdc) (fun dc => ?_)
    by_cases hc : 0 < dc
    · rw [if_pos hc]
      refine errWithin_bind
        (errWithin_of_noErr (noErr_clip_locator_bbox o pSize 18 520 980) S) (fun ok => ?_)
      cases ok with
      | true => exact errWithin_of_noErr (noErr_pure ()) S
      | false => exact errWithin_opShot o Site.vpSizeDialog pSize hv1
    · rw [if_neg hc]
      exact errWithin_opShot o Site.vpSizeNoDialog pSize hv2

/-- The call sites of `capture_pdp` whose exceptions are not absorbed by any
`try/except`: directory creation, playwright start, browser/context/page
acquisition, navigation, the full-page baseline screenshot, the four viewport
fallback screenshots, the size-chart dialog `count()` query, and
`browser.close()`. -/
def propagatingSites : List Site :=
  [Site.mkdirOut, Site.pwStart, Site.launchBrowser, Site.newContext, Site.newPage,
   Site.gotoNav, Site.fullPageShot, Site.vpDetails, Site.vpCare, Site.vpSizeDialog,
   Site.vpSizeNoDialog, Site.vpSizeNotOpened, Site.dialogCount, Site.browserClose]

/-- The failures the claim says are the only propagating ones: browser
resource acquisition and navigation. -/
def fatalSpecSites : List Site :=
  [Site.pwStart, Site.launchBrowser, Site.newContext, Site.newPage, Site.gotoNav]

/-- C4 exactly as claimed: every exception propagating out of `capture_pdp`
escaped from navigation or browser resource acquisition. -/
def claimC4Prop : Prop :=
  ∀ (o : PageOracle) (url outRoot : String) (s : BrowserSt) (e : Site),
    (capture_pdp o url outRoot s).1 = Except.error e → e ∈ fatalSpecSites

/-- C4 counterexample: on a page where every call succeeds except screenshots
after the baseline, the Details viewport-fallback screenshot raises and the
exception escapes `capture_pdp` — a screenshot failure, neither navigation nor
resource acquisition, propagates to the caller. -/
theorem viewport_shot_failure_propagates : ¬ claimC4Prop := fun h =>
  absurd (h oracleShotFail "u" "out" st0 Site.vpDetails (by rfl)) (by decide)

theorem errWithin_captureBody (o : PageOracle) (p1 p2 p3 p4 : String) :
    ErrWithin (captureBody o p1 p2 p3 p4) propagatingSites := by
  unfold captureBody
  refine errWithin_bind
    (errWithin_capturePreamble o p1 (by decide) (by decide) (by decide) (by decide)
      (by decide)) (fun vt => ?_)
  refine errWithin_bind (errWithin_detailsBlock o p2 (by decide)) (fun _ => ?_)
  refine errWithin_bind (errWithin_careBlock o p3 (by decide)) (fun _ => ?_)
  refine errWithin_bind
    (errWithin_sizeChartBlock o p4 (by decide) (by decide) (by decide) (by decide))
    (fun _ => ?_)
  exact errWithin_bind (errWithin_opCloseBrowser o (by decide))
    (fun _ => errWithin_of_noErr (noErr_pure _) _)

/-- C4 amended: besides navigation failure and browser resource-acquisition
failure, the failures of the output-directory creation, of the full-page
baseline screenshot, of any viewport-fallback screenshot, of the size-chart
dialog `count()` query, and of `browser.close()` also propagate out of
`capture_pdp` (none of these call sites is inside a `try/except`); every
other internal step failure — overlay dismissal, section location, expansion,
clip computation, clipped screenshot capture, text extraction — is absorbed
locally and never raises out of the call. -/
theorem capture_error_sites (o : PageOracle) (url outRoot : String) (s : BrowserSt)
    (e : Site) (h : (capture_pdp o url outRoot s).1 = Except.error e) :
    e ∈ propagatingSites := by
  have hall : ErrWithin (capture_pdp o url outRoot) propagatingSites := by
    unfold capture_pdp
    refine errWithin_bind (errWithin_opUnit o Site.mkdirOut (by decide)) (fun _ => ?_)
    refine errWithin_bind (errWithin_opUnit o Site.pwStart (by decide)) (fun _ => ?_)
    exact errWithin_bind (errWithin_withPlaywright (errWithin_captureBody o _ _ _ _))
      (fun vt => errWithin_of_noErr (noErr_pure _) _)
  exact hall s e h

theorem capture_error_sites_witness : Site.gotoNav ∈ propagatingSites :=
  capture_error_sites oracleNavFail "u" "out" st0 Site.gotoNav (by rfl)

/-! ## Browser release on every exit path. -/

def KeepsBHFalse {α : Type} (m : CaptM α) : Prop :=
  ∀ s, s.browserHeld = false → ((m s).2).browserHeld = false

theorem keeps_bind {α β : Type} {x : CaptM α} {f : α → CaptM β}
    (hx : KeepsBHFalse x) (hf : ∀ a, KeepsBHFalse (f a)) : KeepsBHFalse (x >>= f) := by
  intro s h
  rw [run_bind]
  rcases hxs : x s with ⟨r, s₁⟩
  have h₁ : s₁.browserHeld = false := by
    have hx' := hx s h
    rw [hxs] at hx'
    exact hx'
  cases r with
  | ok a => exact hf a s₁ h₁
  | error e => exact h₁

theorem keeps_opUnit (o : PageOracle) (site : Site) : KeepsBHFalse (opUnit o site) := by
  intro s h
  show (bumpK s).browserHeld = false
  exact h

theorem withPlaywright_bh {α : Type} (body : CaptM α) (s : BrowserSt) :
    ((withPlaywright body s).2).browserHeld = false := by
  unfold withPlaywright
  rcases body s with ⟨r, s'⟩
  rfl

theorem keeps_withPlaywright {α : Type} (body : CaptM α) :
    KeepsBHFalse (withPlaywright body) :=
  fun s _ => withPlaywright_bh body s

/-- C7: whenever `capture_pdp` starts without a held browser, it terminates —
normally or exceptionally, at any failing step — without a held browser: the
browser launched inside the `with sync_playwright()` scope is released on
every exit path (by `browser.close()` on the normal path, and by the scope
exit stopping the driver and its browsers on all paths). -/
theorem capture_releases_browser (o : PageOracle) (url outRoot : String)
    (s : BrowserSt) (h : s.browserHeld = false) :
    ((capture_pdp o url outRoot s).2).browserHeld = false := by
  have hk : KeepsBHFalse (capture_pdp o url outRoot) := by
    unfold capture_pdp
    refine keeps_bind (keeps_opUnit o Site.mkdirOut) (fun _ => ?_)
    refine keeps_bind (keeps_opUnit o Site.pwStart) (fun _ => ?_)
    exact keeps_bind (keeps_withPlaywright _) (fun vt s' h' => h')
  exact hk s h

/-- Witness on an error path: navigation fails, the run aborts with the
navigation error, and the browser is still not held afterwards. -/
theorem capture_releases_browser_witness :
    ((capture_pdp oracleNavFail "u" "out" st0).2).browserHeld = false :=
  capture_releases_browser oracleNavFail "u" "out" st0 rfl

/-! ## Produced files only accumulate. -/

def Mono {α : Type} (m : CaptM α) : Prop :=
  ∀ s p, p ∈ s.files → p ∈ ((m s).2).files

theorem mono_pure {α : Type} (a : α) : Mono (pure a : CaptM α) :=
  fun _ _ hp => hp

theorem mono_bind {α β : Type} {x : CaptM α} {f : α → CaptM β}
    (hx : Mono x) (hf : ∀ a, Mono (f a)) : Mono (x >>= f) := by
  intro s p hp
  rw [run_bind]
  rcases hxs : x s with ⟨r, s₁⟩
  have h₁ : p ∈ s₁.files := by
    have hx' := hx s p hp
    rw [hxs] at hx'
    exact hx'
  cases r with
  | ok a => exact hf a s₁ p h₁
  | error e => exact h₁

theorem mono_attempt {α : Type} {x h : CaptM α} (hx : Mono x) (hh : Mono h) :
    Mono (attempt x h) := by
  intro s p hp
  unfold attempt
  rcases hxs : x s with ⟨r, s₁⟩
  have h₁ : p ∈ s₁.files := by
    have hx' := hx s p hp
    rw [hxs] at hx'
    exact hx'
  cases r with
  | ok a => exact h₁
  | error e => exact hh s₁ p h₁

theorem mono_opUnit (o : PageOracle) (site : Site) : Mono (opUnit o site) :=
  fun _ _ hp => hp

theorem mono_opNat (o : PageOracle) (site : Site) : Mono (opNat o site) :=
  fun _ _ hp => hp

theorem mono_opBBox (o : PageOracle) (site : Site) : Mono (opBBox o site) :=
  fun _ _ hp => hp

theorem mono_opStr (o : PageOracle) (site : Site) : Mono (opStr o site) :=
  fun _ _ hp => hp

theorem mono_opLaunch (o : PageOracle) : Mono (opLaunch o) := by
  intro s p hp
  unfold opLaunch
  cases o.unitRes s.k with
  | ok u => exact hp
  | error u => exact hp

theorem mono_opCloseBrowser (o : PageOracle) : Mono (opCloseBrowser o) := by
  intro s p hp
  unfold opCloseBrowser
  cases o.unitRes s.k with
  | ok u => exact hp
  | error u => exact hp

theorem mono_opNewContext (o : PageOracle) (w h : Nat) (loc : String) :
    Mono (opNewContext o w h loc) :=
  fun _ _ hp => hp

theorem mono_opShot (o : PageOracle) (site : Site) (path : String) :
    Mono (opShot o site path) := by
  intro s p hp
  unfold opShot
  cases o.shotRes s.shots with
  | ok u => exact List.mem_cons_of_mem _ hp
  | error u => exact hp

theorem mono_opShotClip (o : PageOracle) (site : Site) (clip : ClipRegion)
    (path : String) : Mono (opShotClip o site clip path) :=
  mono_opShot o site path

theorem mono_click_first (o : PageOracle) (sels : List String) :
    Mono (click_first o sels) := by
  induction sels with
  | nil => exact mono_pure false
  | cons sel rest ih =>
    refine mono_bind (mono_attempt ?_ (mono_pure false)) (fun hit => ?_)
    · refine mono_bind (mono_opNat o _) (fun c => ?_)
      by_cases h0 : c = 0
      · rw [if_pos h0]; exact mono_pure false
      · rw [if_neg h0]
        exact mono_bind (mono_opUnit o _)
          (fun _ => mono_bind (mono_opUnit o _) (fun _ => mono_pure true))
    · cases hit with
      | true => exact mono_pure true
      | false => exact ih

theorem mono_overlayPass (o : PageOracle) : Mono (overlayPass o) := by
  unfold overlayPass
  refine mono_bind (mono_click_first o _) (fun d1 => ?_)
  refine mono_bind (mono_click_first o _) (fun d2 => ?_)
  refine mono_bind (mono_attempt (mono_opUnit o _) (mono_pure ())) (fun _ => ?_)
  refine mono_bind (mono_attempt (mono_opUnit o _) (mono_pure ())) (fun _ => ?_)
  cases hd : d1 || d2 with
  | true => exact mono_pure true
  | false =>
    refine mono_bind
      (mono_attempt (mono_bind (mono_opNat o _) (fun c => mono_pure _)) (mono_pure false))
      (fun hasDialog => ?_)
    cases hasDialog with
    | true =>
      exact mono_bind (mono_attempt (mono_opUnit o _) (mono_pure ()))
        (fun _ => mono_pure false)
    | false => exact mono_bind (mono_pure ()) (fun _ => mono_pure false)

theorem mono_overlayLoop (o : PageOracle) : ∀ n, Mono (overlayLoop o n) := by
  intro n
  induction n with
  | zero => exact mono_pure 0
  | succ n ih =>
    refine mono_bind (mono_overlayPass o) (fun cont => ?_)
    cases cont with
    | true => exact mono_bind ih (fun m => mono_pure (m + 1))
    | false => exact mono_pure 1

theorem mono_dismiss_overlays (o : PageOracle) : Mono (dismiss_overlays o) :=
  mono_attempt (mono_overlayLoop o 3) (mono_pure 0)

theorem mono_clip_to_bbox (o : PageOracle) (b : BBoxQ) (path : String) :
    Mono (clip_to_bbox o b path) :=
  mono_attempt
    (mono_bind (mono_opShotClip o _ _ path) (fun _ => mono_pure true))
    (mono_pure false)

theorem mono_clip_locator_bbox (o : PageOracle) (path : String) (pad minH maxH : Rat) :
    Mono (clip_locator_bbox o path pad minH maxH) := by
  refine mono_attempt ?_ (mono_pure false)
  refine mono_bind (mono_opNat o _) (fun c => ?_)
  by_cases h0 : c = 0
  · rw [if_pos h0]; exact mono_pure false
  · rw [if_neg h0]
    refine mono_bind (mono_opUnit o _) (fun _ => ?_)
    refine mono_bind (mono_opBBox o _) (fun bb => ?_)
    cases bb with
    | none => exact mono_pure false
    | some b => exact mono_clip_to_bbox o _ path

theorem mono_sectionContainerGo (o : PageOracle) : ∀ n, Mono (sectionContainerGo o n) := by
  intro n
  induction n with
  | zero => exact mono_pure _
  | succ n ih =>
    refine mono_bind (mono_opNat o _) (fun c => ?_)
    by_cases h0 : c = 0
    · rw [if_pos h0]; exact ih
    · rw [if_neg h0]
      refine mono_bind (mono_opBBox o _) (fun bb => ?_)
      cases bb with
      | none => exact ih
      | some b =>
        show Mono (if 600 ≤ b.w then
          pure (some (ContainerChoice.cand (6 - (n + 1)))) else sectionContainerGo o n)
        by_cases hw : 600 ≤ b.w
        · rw [if_pos hw]; exact mono_pure _
        · rw [if_neg hw]; exact ih

theorem mono_sectionContainerM (o : PageOracle) : Mono (sectionContainerM o) :=
  mono_attempt (mono_sectionContainerGo o 6) (mono_pure none)

theorem mono_expandDetailsTrigger (o : PageOracle) : Mono (expandDetailsTrigger o) := by
  refine mono_attempt ?_ (mono_pure ())
  refine mono_bind (mono_opNat o _) (fun c => ?_)
  by_cases h0 : 0 < c
  · rw [if_pos h0]
    exact mono_bind (mono_opUnit o _) (fun _ => mono_opUnit o _)
  · rw [if_neg h0]; exact mono_pure ()

theorem mono_detailsBlock (o : PageOracle) (pDet : String) : Mono (detailsBlock o pDet) := by
  unfold detailsBlock
  refine mono_bind (mono_dismiss_overlays o) (fun _ => ?_)
  refine mono_bind (mono_attempt ?_ (mono_pure false)) (fun detailsOk => ?_)
  · refine mono_bind (mono_opNat o _) (fun c => ?_)
    by_cases h0 : 0 < c
    · rw [if_pos h0]
      refine mono_bind (mono_sectionContainerM o) (fun cont => ?_)
      cases cont with
      | some cc =>
        refine mono_bind (mono_opNat o _) (fun c2 => ?_)
        by_cases h02 : 0 < c2
        · rw [if_pos h02]; exact mono_clip_locator_bbox o pDet 24 650 980
        · rw [if_neg h02]; exact mono_pure false
      | none => exact mono_pure false
    · rw [if_neg h0]; exact mono_pure false
  · cases detailsOk with
    | true => exact mono_pure ()
    | false =>
      refine mono_bind (mono_attempt ?_ (mono_pure ())) (fun _ => mono_opShot o _ pDet)
      refine mono_bind (mono_opNat o _) (fun c => ?_)
      by_cases h0 : 0 < c
      · rw [if_pos h0]; exact mono_opUnit o _
      · rw [if_neg h0]; exact mono_pure ()

theorem mono_careBlock (o : PageOracle) (pCare : String) : Mono (careBlock o pCare) := by
  unfold careBlock
  refine mono_bind (mono_dismiss_overlays o) (fun _ => ?_)
  refine mono_bind (mono_attempt ?_ (mono_pure false)) (fun careOk => ?_)
  · refine mono_bind (mono_opNat o _) (fun c => ?_)
    by_cases h0 : 0 < c
    · rw [if_pos h0]
      refine mono_bind (mono_opUnit o _) (fun _ => ?_)
      refine mono_bind (mono_attempt (mono_opUnit o _) (mono_pure ())) (fun _ => ?_)
      refine mono_bind (mono_attempt (mono_opUnit o _) (mono_pure ())) (fun _ => ?_)
      refine mono_bind (mono_dismiss_overlays o) (fun _ => ?_)
      refine mono_bind (mono_sectionContainerM o) (fun cont => ?_)
      cases cont with
      | some cc =>
        refine mono_bind (mono_opNat o _) (fun c2 => ?_)
        by_cases h02 : 0 < c2
        · rw [if_pos h02]; exact mono_clip_locator_bbox o pCare 24 650 980
        · rw [if_neg h02]; exact mono_pure false
      | none => exact mono_pure false
    · rw [if_neg h0]; exact mono_pure false
  · cases careOk with
    | true => exact mono_pure ()
    | false =>
      exact mono_bind (mono_attempt (mono_opUnit o _) (mono_pure ()))
        (fun _ => mono_opShot o _ pCare)

theorem mono_sizeChartBlock (o : PageOracle) (pSize : String) :
    Mono (sizeChartBlock o pSize) := by
  unfold sizeChartBlock
  refine mono_bind (mono_attempt (mono_opUnit o _) (mono_pure ())) (fun _ => ?_)
  refine mono_bind (mono_dismiss_overlays o) (fun _ => ?_)
  refine mono_bind (mono_click_first o _) (fun opened => ?_)
  cases opened with
  | false => exact mono_opShot o _ pSize
  | true =>
    refine mono_bind (mono_attempt (mono_opUnit o _) (mono_pure ())) (fun _ => ?_)
    refine mono_bind (mono_dismiss_overlays o) (fun _ => ?_)
    refine mono_bind (mono_opNat o _) (fun dc => ?_)
    by_cases hc : 0 < dc
    · rw [if_pos hc]
      refine mono_bind (mono_clip_locator_bbox o pSize 18 520 980) (fun ok => ?_)
      cases ok with
      | true => exact mono_pure ()
      | false => exact mono_opShot o _ pSize
    · rw [if_neg hc]; exact mono_opShot o _ pSize

/-! ## Every artifact key receives a file on a successful run. -/

theorem pure_bool_ok_inj {a b : Bool} {s s' : BrowserSt}
    (h : (pure a : CaptM Bool) s = (Except.ok b, s')) : a = b :=
  Except.ok.inj (congrArg Prod.fst h)

theorem opShot_ok_file {o : PageOracle} {site : Site} {path : String}
    {s s' : BrowserSt} {u : Unit} (h : opShot o site path s = (Except.ok u, s')) :
    path ∈ s'.files := by
  unfold opShot at h
  cases hr : o.shotRes s.shots with
  | ok v =>
    rw [hr] at h
    have hs : ({ s with shots := s.shots + 1, files := path :: s.files } : BrowserSt) = s' :=
      congrArg Prod.snd h
    rw [← hs]
    exact List.mem_cons_self _ _
  | error v =>
    rw [hr] at h
    exact Except.noConfusion (congrArg Prod.fst h)

theorem clip_to_bbox_true_file {o : PageOracle} {b : BBoxQ} {path : String}
    {s s' : BrowserSt} (h : clip_to_bbox o b path s = (Except.ok true, s')) :
    path ∈ s'.files := by
  rcases attempt_ok_destruct h with hok | ⟨e, s₁, hx, hh⟩
  · obtain ⟨u, s₁, hshot, hpure⟩ := bind_ok_destruct hok
    have hs : s₁ = s' := congrArg Prod.snd hpure
    exact hs ▸ opShot_ok_file hshot
  · exact Bool.noConfusion (pure_bool_ok_inj hh)

theorem clip_locator_bbox_true_file {o : PageOracle} {path : String}
    {pad minH maxH : Rat} {s s' : BrowserSt}
    (h : clip_locator_bbox o path pad minH maxH s = (Except.ok true, s')) :
    path ∈ s'.files := by
  rcases attempt_ok_destruct h with hok | ⟨e, s₁, hx, hh⟩
  · obtain ⟨c, s₁, hc, hrest⟩ := bind_ok_destruct hok
    by_cases h0 : c = 0
    · rw [if_pos h0] at hrest
      exact Bool.noConfusion (pure_bool_ok_inj hrest)
    · rw [if_neg h0] at hrest
      obtain ⟨_, s₂, hscr, hrest⟩ := bind_ok_destruct hrest
      obtain ⟨bb, s₃, hbb, hrest⟩ := bind_ok_destruct hrest
      cases bb with
      | none => exact Bool.noConfusion (pure_bool_ok_inj hrest)
      | some bx => exact clip_to_bbox_true_file hrest
  · exact Bool.noConfusion (pure_bool_ok_inj hh)

theorem detailsBlock_ok_file {o : PageOracle} {pDet : String} {s s' : BrowserSt}
    {u : Unit} (h : detailsBlock o pDet s = (Except.ok u, s')) : pDet ∈ s'.files := by
  unfold detailsBlock at h
  obtain ⟨_, s₁, hdis, h⟩ := bind_ok_destruct h
  obtain ⟨detailsOk, s₂, hat, h⟩ := bind_ok_destruct h
  cases detailsOk with
  | true =>
    have hs : s₂ = s' := congrArg Prod.snd h
    rcases attempt_ok_destruct hat with hok | ⟨e, s₃, hx, hh⟩
    · obtain ⟨c, s₃, hc, hrest⟩ := bind_ok_destruct hok
      by_cases h0 : 0 < c
      · rw [if_pos h0] at hrest
        obtain ⟨cont, s₄, hcont, hrest⟩ := bind_ok_destruct hrest
        cases cont with
        | some cc =>
          obtain ⟨c2, s₅, hc2, hrest⟩ := bind_ok_destruct hrest
          by_cases h02 : 0 < c2
          · rw [if_pos h02] at hrest
            exact hs ▸ clip_locator_bbox_true_file hrest
          · rw [if_neg h02] at hrest
            exact Bool.noConfusion (pure_bool_ok_inj hrest)
        | none => exact Bool.noConfusion (pure_bool_ok_inj hrest)
      · rw [if_neg h0] at hrest
        exact Bool.noConfusion (pure_bool_ok_inj hrest)
    · exact Bool.noConfusion (pure_bool_ok_inj hh)
  | false =>
    obtain ⟨_, s₃, hscr, h⟩ := bind_ok_destruct h
    exact opShot_ok_file h

theorem careBlock_ok_file {o : PageOracle} {pCare : String} {s s' : BrowserSt}
    {u : Unit} (h : careBlock o pCare s = (Except.ok u, s')) : pCare ∈ s'.files := by
  unfold careBlock at h
  obtain ⟨_, s₁, hdis, h⟩ := bind_ok_destruct h
  obtain ⟨careOk, s₂, hat, h⟩ := bind_ok_destruct h
  cases careOk with
  | true =>
    have hs : s₂ = s' := congrArg Prod.snd h
    rcases attempt_ok_destruct hat with hok | ⟨e, s₃, hx, hh⟩
    · obtain ⟨c, s₃, hc, hrest⟩ := bind_ok_destruct hok
      by_cases h0 : 0 < c
      · rw [if_pos h0] at hrest
        obtain ⟨_, s₄, _, hrest⟩ := bind_ok_destruct hrest
        obtain ⟨_, s₅, _, hrest⟩ := bind_ok_destruct hrest
        obtain ⟨_, s₆, _, hrest⟩ := bind_ok_destruct hrest
        obtain ⟨_, s₇, _, hrest⟩ := bind_ok_destruct hrest
        obtain ⟨cont, s₈, hcont, hrest⟩ := bind_ok_destruct hrest
        cases cont with
        | some cc =>
          obtain ⟨c2, s₉, hc2, hrest⟩ := bind_ok_destruct hrest
          by_cases h02 : 0 < c2
          · rw [if_pos h02] at hrest
            exact hs ▸ clip_locator_bbox_true_file hrest
          · rw [if_neg h02] at hrest
            exact Bool.noConfusion (pure_bool_ok_inj hrest)
        | none => exact Bool.noConfusion (pure_bool_ok_inj hrest)
      · rw [if_neg h0] at hrest
        exact Bool.noConfusion (pure_bool_ok_inj hrest)
    · exact Bool.noConfusion (pure_bool_ok_inj hh)
  | false =>
    obtain ⟨_, s₃, hsc, h⟩ := bind_ok_destruct h
    exact opShot_ok_file h

theorem sizeChartBlock_ok_file {o : PageOracle} {pSize : String} {s s' : BrowserSt}
    {u : Unit} (h : sizeChartBlock o pSize s = (Except.ok u, s')) : pSize ∈ s'.files := by
  unfold sizeChartBlock at h
  obtain ⟨_, s₁, hev, h⟩ := bind_ok_destruct h
  obtain ⟨_, s₂, hdis, h⟩ := bind_ok_destruct h
  obtain ⟨opened, s₃, hop, h⟩ := bind_ok_destruct h
  cases opened with
  | false => exact opShot_ok_file h
  | true =>
    obtain ⟨_, s₄, hw, h⟩ := bind_ok_destruct h
    obtain ⟨_, s₅, hdis2, h⟩ := bind_ok_destruct h
    obtain ⟨dc, s₆, hdc, h⟩ := bind_ok_destruct h
    by_cases hc : 0 < dc
    · rw [if_pos hc] at h
      obtain ⟨ok, s₇, hclip, h⟩ := bind_ok_destruct h
      cases ok with
      | true =>
        have hs : s₇ = s' := congrArg Prod.snd h
        exact hs ▸ clip_locator_bbox_true_file hclip
      | false => exact opShot_ok_file h
    · rw [if_neg hc] at h
      exact opShot_ok_file h

theorem capturePreamble_ok_file {o : PageOracle} {pFull : String} {s s' : BrowserSt}
    {vt : String} (h : capturePreamble o pFull s = (Except.ok vt, s')) :
    pFull ∈ s'.files := by
  unfold capturePreamble at h
  obtain ⟨_, s₁, _, h⟩ := bind_ok_destruct h
  obtain ⟨_, s₂, _, h⟩ := bind_ok_destruct h
  obtain ⟨_, s₃, _, h⟩ := bind_ok_destruct h
  obtain ⟨_, s₄, _, h⟩ := bind_ok_destruct h
  obtain ⟨_, s₅, _, h⟩ := bind_ok_destruct h
  obtain ⟨_, s₆, _, h⟩ := bind_ok_destruct h
  obtain ⟨_, s₇, _, h⟩ := bind_ok_destruct h
  obtain ⟨_, s₈, _, h⟩ := bind_ok_destruct h
  obtain ⟨_, s₉, _, h⟩ := bind_ok_destruct h
  obtain ⟨_, s10, hshot, h⟩ := bind_ok_destruct h
  obtain ⟨vt', s11, hstr, h⟩ := bind_ok_destruct h
  have hs : s11 = s' := congrArg Prod.snd h
  have h1 : pFull ∈ s10.files := opShot_ok_file hshot
  have h2 : pFull ∈ s11.files := by
    have hm := mono_attempt (mono_opStr o Site.innerTextOp) (mono_pure "") s10 pFull h1
    rw [hstr] at hm
    exact hm
  exact hs ▸ h2

theorem captureBody_ok_files {o : PageOracle} {p1 p2 p3 p4 : String}
    {s s' : BrowserSt} {vt : String}
    (h : captureBody o p1 p2 p3 p4 s = (Except.ok vt, s')) :
    p1 ∈ s'.files ∧ p2 ∈ s'.files ∧ p3 ∈ s'.files ∧ p4 ∈ s'.files := by
  unfold captureBody at h
  obtain ⟨vt0, s₁, hpre, h⟩ := bind_ok_destruct h
  obtain ⟨_, s₂, hdet, h⟩ := bind_ok_destruct h
  obtain ⟨_, s₃, hcare, h⟩ := bind_ok_destruct h
  obtain ⟨_, s₄, hsize, h⟩ := bind_ok_destruct h
  obtain ⟨_, s₅, hclose, h⟩ := bind_ok_destruct h
  have hs : s₅ = s' := congrArg Prod.snd h
  have carryDet : ∀ p, p ∈ s₁.files → p ∈ s₂.files := fun p hp => by
    have hm := mono_detailsBlock o p2 s₁ p hp
    rw [hdet] at hm
    exact hm
  have carryCare : ∀ p, p ∈ s₂.files → p ∈ s₃.files := fun p hp => by
    have hm := mono_careBlock o p3 s₂ p hp
    rw [hcare] at hm
    exact hm
  have carrySize : ∀ p, p ∈ s₃.files → p ∈ s₄.files := fun p hp => by
    have hm := mono_sizeChartBlock o p4 s₃ p hp
    rw [hsize] at hm
    exact hm
  have carryClose : ∀ p, p ∈ s₄.files → p ∈ s₅.files := fun p hp => by
    have hm := mono_opCloseBrowser o s₄ p hp
    rw [hclose] at hm
    exact hm
  have m1 : p1 ∈ s₅.files :=
    carryClose _ (carrySize _ (carryCare _ (carryDet _ (capturePreamble_ok_file hpre))))
  have m2 : p2 ∈ s₅.files :=
    carryClose _ (carrySize _ (carryCare _ (detailsBlock_ok_file hdet)))
  have m3 : p3 ∈ s₅.files := carryClose _ (carrySize _ (careBlock_ok_file hcare))
  have m4 : p4 ∈ s₅.files := carryClose _ (sizeChartBlock_ok_file hsize)
  exact hs ▸ ⟨m1, m2, m3, m4⟩

/-- C1: whenever `capture_pdp` returns a bundle (in particular navigation and
every non-absorbed step succeeded), the bundle's artifact-path mapping carries
exactly the four fixed keys in order, and every key's path is one at which an
image file was produced during the run — capture always fell back to some
screenshot (viewport at minimum) for each key. -/
theorem capture_complete_bundle (o : PageOracle) (url outRoot : String)
    (s : BrowserSt) (rid : String) (b : EvidenceBundle)
    (h : (capture_pdp o url outRoot s).1 = Except.ok (rid, b)) :
    rid = sha8 url ∧
    b.paths.map Prod.fst = ["full_page", "details_view", "care_view", "size_chart_view"] ∧
    ∀ kp ∈ b.paths, kp.2 ∈ ((capture_pdp o url outRoot s).2).files := by
  rcases hrun : capture_pdp o url outRoot s with ⟨r, sf⟩
  rw [hrun] at h
  obtain rfl : r = Except.ok (rid, b) := h
  unfold capture_pdp at hrun
  obtain ⟨_, s₁, hmk, hrun⟩ := bind_ok_destruct hrun
  obtain ⟨_, s₂, hpw, hrun⟩ := bind_ok_destruct hrun
  obtain ⟨vt, s₃, hwp, hrun⟩ := bind_ok_destruct hrun
  have hsf : s₃ = sf := congrArg Prod.snd hrun
  subst hsf
  have hpair : (sha8 url,
      (⟨url, sha8 url, pjoin outRoot (sha8 url),
        pjoin (pjoin outRoot (sha8 url)) "screenshots",
        capturePaths (pjoin (pjoin outRoot (sha8 url)) "screenshots"), vt⟩ :
        EvidenceBundle)) = (rid, b) :=
    Except.ok.inj (congrArg Prod.fst hrun)
  injection hpair with hrid hb
  subst hrid
  subst hb
  -- unpack the `with`-scope: the body's final files are the final files
  unfold withPlaywright at hwp
  rcases hbody : captureBody o
      (lookupPath (capturePaths (pjoin (pjoin outRoot (sha8 url)) "screenshots")) "full_page")
      (lookupPath (capturePaths (pjoin (pjoin outRoot (sha8 url)) "screenshots")) "details_view")
      (lookupPath (capturePaths (pjoin (pjoin outRoot (sha8 url)) "screenshots")) "care_view")
      (lookupPath (capturePaths (pjoin (pjoin outRoot (sha8 url)) "screenshots")) "size_chart_view")
      s₂ with ⟨rb, sb⟩
  rw [hbody] at hwp
  have hwp' : ((rb, { sb with browserHeld := false }) :
      Except Site String × BrowserSt) = (Except.ok vt, s₃) := hwp
  injection hwp' with hrb hsb
  subst hrb
  subst hsb
  obtain ⟨m1, m2, m3, m4⟩ := captureBody_ok_files hbody
  refine ⟨rfl, rfl, ?_⟩
  intro kp hkp
  have hkp' : kp ∈ capturePaths (pjoin (pjoin outRoot (sha8 url)) "screenshots") := hkp
  rcases List.mem_cons.mp hkp' with rfl | hkp'
  · exact m1
  · rcases List.mem_cons.mp hkp' with rfl | hkp'
    · exact m2
    · rcases List.mem_cons.mp hkp' with rfl | hkp'
      · exact m3
      · rcases List.mem_cons.mp hkp' with rfl | hkp'
        · exact m4
        · exact absurd hkp' (List.not_mem_nil kp)

/-- The bundle returned by the all-successful run on url `"u"`. -/
def bundleAllOk : EvidenceBundle :=
  ⟨"u", sha8 "u", pjoin "out" (sha8 "u"), shotsDirOf "out" "u",
   capturePaths (shotsDirOf "out" "u"), ""⟩

theorem capture_complete_bundle_witness :
    sha8 "u" = sha8 "u" ∧
    bundleAllOk.paths.map Prod.fst =
      ["full_page", "details_view", "care_view", "size_chart_view"] ∧
    ∀ kp ∈ bundleAllOk.paths, kp.2 ∈ ((capture_pdp oracleAllOk "u" "out" st0).2).files :=
  capture_complete_bundle oracleAllOk "u" "out" st0 (sha8 "u") bundleAllOk (by rfl)

end QuinceAudit
